import Mathlib

/-!
Shallow embedding of `src/task-1/src/simulation/dataModel.ts`: the attribute
catalog (`blocks`), the scenario catalog (`scenarios`), and the fixed-point
solver `runSimulation` with its Gauss-Seidel relaxation pass.

Numbers are modelled as exact rationals extended with the IEEE-754 special
values NaN, +Infinity and -Infinity (`JsNumber`); rounding of finite
arithmetic is not modelled.  The `debug` parameter of `runSimulation` only
controls console logging and is omitted.
-/

namespace DataModel

/-- A JavaScript number as the simulation uses it: an exact rational finite
value or one of the special values NaN, +Infinity, -Infinity. -/
inductive JsNumber where
  | nan
  | posInf
  | negInf
  | num (q : ℚ)
deriving DecidableEq

namespace JsNumber

/-- JavaScript unary minus. -/
def neg : JsNumber → JsNumber
  | nan => nan
  | posInf => negInf
  | negInf => posInf
  | num q => num (-q)

/-- JavaScript `+` on numbers: NaN is absorbing, infinities of opposite sign
give NaN. -/
def add : JsNumber → JsNumber → JsNumber
  | nan, _ => nan
  | _, nan => nan
  | posInf, negInf => nan
  | negInf, posInf => nan
  | posInf, _ => posInf
  | _, posInf => posInf
  | negInf, _ => negInf
  | _, negInf => negInf
  | num a, num b => num (a + b)

/-- JavaScript `*` on numbers: NaN is absorbing, an infinity times zero is
NaN, otherwise signs multiply. -/
def mul : JsNumber → JsNumber → JsNumber
  | nan, _ => nan
  | _, nan => nan
  | posInf, posInf => posInf
  | posInf, negInf => negInf
  | negInf, posInf => negInf
  | negInf, negInf => posInf
  | posInf, num b => if 0 < b then posInf else if b < 0 then negInf else nan
  | num a, posInf => if 0 < a then posInf else if a < 0 then negInf else nan
  | negInf, num b => if 0 < b then negInf else if b < 0 then posInf else nan
  | num a, negInf => if 0 < a then negInf else if a < 0 then posInf else nan
  | num a, num b => num (a * b)

/-- JavaScript `-` on numbers, as addition of the negation. -/
def sub (a b : JsNumber) : JsNumber := a.add b.neg

/-- JavaScript `<` on numbers: any comparison with NaN is false. -/
def lt : JsNumber → JsNumber → Bool
  | nan, _ => false
  | _, nan => false
  | negInf, negInf => false
  | negInf, _ => true
  | _, negInf => false
  | posInf, _ => false
  | _, posInf => true
  | num a, num b => decide (a < b)

end JsNumber

/-- JavaScript `Math.abs`. -/
def mathAbs : JsNumber → JsNumber
  | JsNumber.nan => JsNumber.nan
  | JsNumber.posInf => JsNumber.posInf
  | JsNumber.negInf => JsNumber.posInf
  | JsNumber.num q => JsNumber.num |q|

/-- JavaScript `Math.max` on two numbers: NaN if either argument is NaN. -/
def mathMax : JsNumber → JsNumber → JsNumber
  | JsNumber.nan, _ => JsNumber.nan
  | _, JsNumber.nan => JsNumber.nan
  | JsNumber.posInf, _ => JsNumber.posInf
  | _, JsNumber.posInf => JsNumber.posInf
  | JsNumber.negInf, b => b
  | a, JsNumber.negInf => a
  | JsNumber.num a, JsNumber.num b => JsNumber.num (max a b)

/-- The flat seven-attribute state (interface `SimulationContext`). -/
@[ext]
structure SimulationContext where
  materialCost : JsNumber
  energyCost : JsNumber
  disposalCost : JsNumber
  co2Cost : JsNumber
  transportCost : JsNumber
  logisticsCost : JsNumber
  ecoFees : JsNumber
deriving DecidableEq

/-- `type AttributeType = "input" | "calculated"`. -/
inductive AttributeType where
  | input
  | calculated
deriving DecidableEq

/-- `interface Attribute`: a kind tag, an optional baseline value (inputs),
and an optional formula (calculated attributes). -/
structure Attribute where
  type : AttributeType
  value : Option JsNumber
  formula : Option (SimulationContext → JsNumber)

/-- Formula of `blocks.Production.disposalCost` (dataModel.ts line 43). -/
def disposalCostFormula (ctx : SimulationContext) : JsNumber :=
  (ctx.materialCost.mul (JsNumber.num 0.8)).add ctx.co2Cost

/-- Formula of `blocks.Production.co2Cost` (dataModel.ts line 47). -/
def co2CostFormula (ctx : SimulationContext) : JsNumber :=
  (ctx.energyCost.mul (JsNumber.num 0.1)).add (ctx.disposalCost.mul (JsNumber.num 0.05))

/-- Formula of `blocks.Logistics.logisticsCost` (dataModel.ts line 54). -/
def logisticsCostFormula (ctx : SimulationContext) : JsNumber :=
  ctx.transportCost.add ctx.ecoFees

/-- Formula of `blocks.Logistics.ecoFees` (dataModel.ts line 58). -/
def ecoFeesFormula (ctx : SimulationContext) : JsNumber :=
  (ctx.logisticsCost.mul (JsNumber.num 0.1)).add (ctx.co2Cost.mul (JsNumber.num 0.05))

/-- The `Production` block of `blocks`. -/
structure ProductionBlock where
  materialCost : Attribute
  energyCost : Attribute
  disposalCost : Attribute
  co2Cost : Attribute

/-- The `Logistics` block of `blocks`. -/
structure LogisticsBlock where
  transportCost : Attribute
  logisticsCost : Attribute
  ecoFees : Attribute

/-- `interface Blocks`. -/
structure Blocks where
  Production : ProductionBlock
  Logistics : LogisticsBlock

/-- The model definition `blocks` (dataModel.ts lines 37-61). -/
def blocks : Blocks :=
  { Production :=
      { materialCost := { type := .input, value := some (.num 120), formula := none }
        energyCost := { type := .input, value := some (.num 60), formula := none }
        disposalCost := { type := .calculated, value := none, formula := some disposalCostFormula }
        co2Cost := { type := .calculated, value := none, formula := some co2CostFormula } }
    Logistics :=
      { transportCost := { type := .input, value := some (.num 35), formula := none }
        logisticsCost := { type := .calculated, value := none, formula := some logisticsCostFormula }
        ecoFees := { type := .calculated, value := none, formula := some ecoFeesFormula } } }

/-- `Scenario`'s `Production` component: a partial record over the keys of
`blocks.Production` (calculated attribute names included). -/
structure ProductionOverrides where
  materialCost : Option JsNumber
  energyCost : Option JsNumber
  disposalCost : Option JsNumber
  co2Cost : Option JsNumber
deriving DecidableEq

/-- `Scenario`'s `Logistics` component: a partial record over the keys of
`blocks.Logistics`. -/
structure LogisticsOverrides where
  transportCost : Option JsNumber
  logisticsCost : Option JsNumber
  ecoFees : Option JsNumber
deriving DecidableEq

/-- `type Scenario`: optional per-block partial overrides. -/
structure Scenario where
  Production : Option ProductionOverrides
  Logistics : Option LogisticsOverrides
deriving DecidableEq

/-- The empty `ProductionOverrides` record (`{}`). -/
def emptyProductionOverrides : ProductionOverrides :=
  { materialCost := none, energyCost := none, disposalCost := none, co2Cost := none }

/-- The empty `LogisticsOverrides` record (`{}`). -/
def emptyLogisticsOverrides : LogisticsOverrides :=
  { transportCost := none, logisticsCost := none, ecoFees := none }

/-- The empty `Scenario` record (`{}`). -/
def emptyScenario : Scenario := { Production := none, Logistics := none }

/-- `scenarios.Base.Production` (dataModel.ts line 66). -/
def baseProduction : ProductionOverrides :=
  { materialCost := some (.num 120), energyCost := some (.num 60),
    disposalCost := none, co2Cost := none }

/-- `scenarios.Base.Logistics` (dataModel.ts line 67). -/
def baseLogistics : LogisticsOverrides :=
  { transportCost := some (.num 35), logisticsCost := none, ecoFees := none }

/-- The `Base` entry of `scenarios` (dataModel.ts lines 65-68). -/
def scenarios.Base : Scenario :=
  { Production := some baseProduction, Logistics := some baseLogistics }

/-- The `HighEnergyPrices` entry of `scenarios` (dataModel.ts lines 69-72). -/
def scenarios.HighEnergyPrices : Scenario :=
  { Production := some { materialCost := none, energyCost := some (.num 90),
                         disposalCost := none, co2Cost := none }
    Logistics := some { transportCost := some (.num 40), logisticsCost := none,
                        ecoFees := none } }

/-- Runtime lookup `scenarios[scenarioName]` on the scenario catalog. -/
def scenariosGet (scenarioName : String) : Option Scenario :=
  if scenarioName = "Base" then some scenarios.Base
  else if scenarioName = "HighEnergyPrices" then some scenarios.HighEnergyPrices
  else none

/-- Per-field semantics of the object spread `{...base, ...scen, ...manual}`:
the latest record that carries the field wins. -/
def spread3 (base scen manual : Option JsNumber) : Option JsNumber :=
  match manual with
  | some v => some v
  | none =>
    match scen with
    | some v => some v
    | none => base

/-- `finalProduction` of `runSimulation` (dataModel.ts lines 90-94):
`{...baseProduction, ...scenarioProduction, ...(manualOverrides?.Production || {})}`. -/
def finalProduction (scenarioName : String) (manualOverrides : Option Scenario) :
    ProductionOverrides :=
  let scen := ((scenariosGet scenarioName).getD emptyScenario).Production.getD
    emptyProductionOverrides
  let manual := (manualOverrides.bind Scenario.Production).getD emptyProductionOverrides
  { materialCost := spread3 baseProduction.materialCost scen.materialCost manual.materialCost
    energyCost := spread3 baseProduction.energyCost scen.energyCost manual.energyCost
    disposalCost := spread3 baseProduction.disposalCost scen.disposalCost manual.disposalCost
    co2Cost := spread3 baseProduction.co2Cost scen.co2Cost manual.co2Cost }

/-- `finalLogistics` of `runSimulation` (dataModel.ts lines 95-99). -/
def finalLogistics (scenarioName : String) (manualOverrides : Option Scenario) :
    LogisticsOverrides :=
  let scen := ((scenariosGet scenarioName).getD emptyScenario).Logistics.getD
    emptyLogisticsOverrides
  let manual := (manualOverrides.bind Scenario.Logistics).getD emptyLogisticsOverrides
  { transportCost := spread3 baseLogistics.transportCost scen.transportCost manual.transportCost
    logisticsCost := spread3 baseLogistics.logisticsCost scen.logisticsCost manual.logisticsCost
    ecoFees := spread3 baseLogistics.ecoFees scen.ecoFees manual.ecoFees }

/-- Models the non-null assertion `x!` on a possibly-missing merged field: a
missing field reads as `undefined`, which behaves as NaN in any arithmetic
that consumes it.  The merged records always carry the three input fields
(the Base scenario supplies them), so this default is never reached by
`runSimulation`. -/
def bangNum (o : Option JsNumber) : JsNumber := o.getD JsNumber.nan

/-- The initial context of `runSimulation` (dataModel.ts lines 101-109):
resolved input values, calculated attributes zero-initialized. -/
def initialContext (scenarioName : String) (manualOverrides : Option Scenario) :
    SimulationContext :=
  let fp := finalProduction scenarioName manualOverrides
  let fl := finalLogistics scenarioName manualOverrides
  { materialCost := bangNum fp.materialCost
    energyCost := bangNum fp.energyCost
    transportCost := bangNum fl.transportCost
    disposalCost := .num 0
    co2Cost := .num 0
    logisticsCost := .num 0
    ecoFees := .num 0 }

/-- Models `attr.formula!(ctx)`: calling an absent formula is a runtime
failure; on the concrete model every calculated attribute carries a formula,
so this default is never reached by `pass`. -/
def bangFormula (a : Attribute) (ctx : SimulationContext) : JsNumber :=
  match a.formula with
  | some f => f ctx
  | none => JsNumber.nan

/-- One relaxation pass of the solver loop (dataModel.ts lines 114-117): the
four calculated attributes are reassigned in declaration order, each
assignment reading the context as mutated so far (Gauss-Seidel). -/
def pass (ctx : SimulationContext) : SimulationContext :=
  let c1 := { ctx with disposalCost := bangFormula blocks.Production.disposalCost ctx }
  let c2 := { c1 with co2Cost := bangFormula blocks.Production.co2Cost c1 }
  let c3 := { c2 with logisticsCost := bangFormula blocks.Logistics.logisticsCost c2 }
  { c3 with ecoFees := bangFormula blocks.Logistics.ecoFees c3 }

/-- `Math.max(...deltas)` of a pass (dataModel.ts lines 119-124, 136): the
largest absolute difference between the new value and the snapshot value of
the four calculated attributes. -/
def maxDelta (prev next : SimulationContext) : JsNumber :=
  mathMax (mathMax (mathMax
    (mathAbs (next.disposalCost.sub prev.disposalCost))
    (mathAbs (next.co2Cost.sub prev.co2Cost)))
    (mathAbs (next.logisticsCost.sub prev.logisticsCost)))
    (mathAbs (next.ecoFees.sub prev.ecoFees))

/-- The iteration loop of `runSimulation` (dataModel.ts lines 111-137): up to
`maxIterations` passes; after each pass the loop breaks when the maximum
delta is strictly below the threshold. -/
def runLoop (threshold : JsNumber) : Nat → SimulationContext → SimulationContext
  | 0, ctx => ctx
  | n + 1, ctx =>
    let next := pass ctx
    if (maxDelta ctx next).lt threshold then next
    else runLoop threshold n next

/-- `runSimulation` (dataModel.ts lines 76-145), with the logging-only
`debug` parameter omitted. -/
def runSimulation (scenarioName : String) (maxIterations : Nat) (threshold : JsNumber)
    (manualOverrides : Option Scenario) : SimulationContext :=
  runLoop threshold maxIterations (initialContext scenarioName manualOverrides)

/-! ### A rational view of all-finite contexts

On contexts whose seven attributes are finite, the JavaScript arithmetic of a
pass is exact rational arithmetic.  `QCtx` packages such a context as a record
of rationals; `passQ` and `maxDeltaQ` mirror `pass` and `maxDelta` there, and
the bridge lemmas below show the mirror is exact. -/

/-- An all-finite simulation context, as a record of rationals. -/
structure QCtx where
  materialCost : ℚ
  energyCost : ℚ
  disposalCost : ℚ
  co2Cost : ℚ
  transportCost : ℚ
  logisticsCost : ℚ
  ecoFees : ℚ
deriving DecidableEq

/-- Injection of an all-finite context into `SimulationContext`. -/
def QCtx.toJs (c : QCtx) : SimulationContext :=
  { materialCost := .num c.materialCost
    energyCost := .num c.energyCost
    disposalCost := .num c.disposalCost
    co2Cost := .num c.co2Cost
    transportCost := .num c.transportCost
    logisticsCost := .num c.logisticsCost
    ecoFees := .num c.ecoFees }

/-- The relaxation pass on an all-finite context, with each Gauss-Seidel read
substituted: `co2Cost` consumes the `disposalCost` written earlier in the same
pass, and `ecoFees` consumes the `logisticsCost` and `co2Cost` written earlier
in the same pass. -/
def passQ (c : QCtx) : QCtx :=
  { materialCost := c.materialCost
    energyCost := c.energyCost
    disposalCost := c.materialCost * 0.8 + c.co2Cost
    co2Cost := c.energyCost * 0.1 + (c.materialCost * 0.8 + c.co2Cost) * 0.05
    transportCost := c.transportCost
    logisticsCost := c.transportCost + c.ecoFees
    ecoFees := (c.transportCost + c.ecoFees) * 0.1 +
      (c.energyCost * 0.1 + (c.materialCost * 0.8 + c.co2Cost) * 0.05) * 0.05 }

/-- The maximum per-pass delta on all-finite contexts. -/
def maxDeltaQ (prev next : QCtx) : ℚ :=
  max (max (max
    |next.disposalCost - prev.disposalCost|
    |next.co2Cost - prev.co2Cost|)
    |next.logisticsCost - prev.logisticsCost|)
    |next.ecoFees - prev.ecoFees|

theorem pass_toJs (c : QCtx) : pass c.toJs = (passQ c).toJs := rfl

theorem iterate_pass_toJs (k : ℕ) (c : QCtx) :
    pass^[k] c.toJs = (passQ^[k] c).toJs := by
  induction k generalizing c with
  | zero => rfl
  | succ k ih =>
    rw [Function.iterate_succ_apply, Function.iterate_succ_apply, pass_toJs, ih]

theorem maxDelta_toJs (a b : QCtx) :
    maxDelta a.toJs b.toJs = .num (maxDeltaQ a b) := by
  simp [maxDelta, maxDeltaQ, QCtx.toJs, JsNumber.sub, JsNumber.add, JsNumber.neg,
    mathAbs, mathMax, sub_eq_add_neg]

theorem lt_num (a b : ℚ) : (JsNumber.num a).lt (.num b) = decide (a < b) := rfl

/-! ### Characterizations of the solver loop -/

theorem runLoop_zero (th : JsNumber) (s : SimulationContext) : runLoop th 0 s = s := rfl

theorem runLoop_succ (th : JsNumber) (n : ℕ) (s : SimulationContext) :
    runLoop th (n + 1) s =
      if (maxDelta s (pass s)).lt th then pass s else runLoop th n (pass s) := rfl

/-- When every pass fails the delta test, the loop runs all its passes and
returns the last computed context. -/
theorem runLoop_exhaust (th : JsNumber) (n : ℕ) (s : SimulationContext)
    (h : ∀ j, j < n → (maxDelta (pass^[j] s) (pass^[j + 1] s)).lt th = false) :
    runLoop th n s = pass^[n] s := by
  induction n generalizing s with
  | zero => rfl
  | succ n ih =>
    have h0 : (maxDelta s (pass s)).lt th = false := by
      simpa using h 0 (Nat.succ_pos n)
    rw [runLoop_succ, if_neg (by simp [h0])]
    rw [ih (pass s) fun j hj => by
      simpa [Function.iterate_succ_apply] using h (j + 1) (Nat.succ_lt_succ hj)]
    rw [← Function.iterate_succ_apply]

/-- When the delta test first passes on pass `k + 1` (index `k` counting from
zero) and the iteration budget allows that pass, the loop breaks there and
returns that pass's context. -/
theorem runLoop_converge (th : JsNumber) (k n : ℕ) (s : SimulationContext)
    (hkn : k < n)
    (hbefore : ∀ j, j < k → (maxDelta (pass^[j] s) (pass^[j + 1] s)).lt th = false)
    (hk : (maxDelta (pass^[k] s) (pass^[k + 1] s)).lt th = true) :
    runLoop th n s = pass^[k + 1] s := by
  induction k generalizing s n with
  | zero =>
    obtain ⟨n', rfl⟩ : ∃ n', n = n' + 1 := ⟨n - 1, by omega⟩
    have hk' : (maxDelta s (pass s)).lt th = true := by simpa using hk
    rw [runLoop_succ, if_pos hk']
    rfl
  | succ k ih =>
    obtain ⟨n', rfl⟩ : ∃ n', n = n' + 1 := ⟨n - 1, by omega⟩
    have h0 : (maxDelta s (pass s)).lt th = false := by
      simpa using hbefore 0 (Nat.succ_pos k)
    rw [runLoop_succ, if_neg (by simp [h0])]
    rw [ih n' (pass s) (by omega)
      (fun j hj => by
        simpa [Function.iterate_succ_apply] using hbefore (j + 1) (Nat.succ_lt_succ hj))
      (by simpa [Function.iterate_succ_apply] using hk)]
    rw [← Function.iterate_succ_apply]

theorem pass_materialCost (s : SimulationContext) : (pass s).materialCost = s.materialCost := rfl

theorem pass_energyCost (s : SimulationContext) : (pass s).energyCost = s.energyCost := rfl

theorem pass_transportCost (s : SimulationContext) : (pass s).transportCost = s.transportCost := rfl

/-! ### Scenario resolution helpers -/

/-- The resolution precedence exactly as the spec words it, for one input
attribute: the manual override when supplied, otherwise the named scenario's
value when it specifies one, otherwise the Base scenario's value, otherwise
the baseline declared on the attribute in the model. -/
def specResolvedInput (manual scenarioVal baseVal baseline : Option JsNumber) : JsNumber :=
  match manual with
  | some v => v
  | none =>
    match scenarioVal with
    | some v => v
    | none =>
      match baseVal with
      | some v => v
      | none => baseline.getD JsNumber.nan

/-- When the Base scenario supplies a value, reading a merged field through
the non-null assertion agrees with the spec's four-level precedence chain,
whatever the declared baseline is. -/
theorem bang_spread3_eq (man scen : Option JsNumber) (b : ℚ) (bl : Option JsNumber) :
    bangNum (spread3 (some (.num b)) scen man) =
      specResolvedInput man scen (some (.num b)) bl := by
  cases man <;> cases scen <;> rfl

/-- An unknown scenario identifier merges exactly like `"Base"` does. -/
theorem finalProduction_unknown (scenarioName : String)
    (h : scenariosGet scenarioName = none) (o : Option Scenario) :
    finalProduction scenarioName o = finalProduction "Base" o := by
  unfold finalProduction
  rw [h]
  rcases o with _ | ⟨P, L⟩
  · rfl
  · rcases P with _ | ⟨pm, pe, pd, pc⟩
    · rfl
    · cases pm <;> cases pe <;> cases pd <;> cases pc <;> rfl

/-- An unknown scenario identifier merges exactly like `"Base"` does. -/
theorem finalLogistics_unknown (scenarioName : String)
    (h : scenariosGet scenarioName = none) (o : Option Scenario) :
    finalLogistics scenarioName o = finalLogistics "Base" o := by
  unfold finalLogistics
  rw [h]
  rcases o with _ | ⟨P, L⟩
  · rfl
  · rcases L with _ | ⟨lt, ll, lf⟩
    · rfl
    · cases lt <;> cases ll <;> cases lf <;> rfl

/-- When the three resolved inputs are finite, the initial context is the
injection of an all-finite context with zeroed calculated attributes. -/
theorem initialContext_finite (scenarioName : String) (o : Option Scenario) (m e t : ℚ)
    (hm : (finalProduction scenarioName o).materialCost = some (.num m))
    (he : (finalProduction scenarioName o).energyCost = some (.num e))
    (ht : (finalLogistics scenarioName o).transportCost = some (.num t)) :
    initialContext scenarioName o = QCtx.toJs ⟨m, e, 0, 0, t, 0, 0⟩ := by
  unfold initialContext QCtx.toJs
  refine SimulationContext.ext ?_ ?_ ?_ ?_ ?_ ?_ ?_ <;>
    simp only
  · rw [hm]; rfl
  · rw [he]; rfl
  · rw [ht]; rfl

/-! ### The claims -/

/-- C2: within one relaxation pass the four calculated attributes are
recomputed in declaration order (disposalCost, co2Cost, logisticsCost,
ecoFees), each reading the in-place context (Gauss-Seidel): co2Cost consumes
the disposalCost written this pass, ecoFees consumes the logisticsCost and
co2Cost written this pass, while disposalCost consumes the co2Cost from the
previous pass's end (and the inputs are untouched). -/
theorem C2_gauss_seidel_pass (ctx : SimulationContext) :
    (pass ctx).disposalCost = (ctx.materialCost.mul (.num 0.8)).add ctx.co2Cost ∧
    (pass ctx).co2Cost =
      (ctx.energyCost.mul (.num 0.1)).add ((pass ctx).disposalCost.mul (.num 0.05)) ∧
    (pass ctx).logisticsCost = ctx.transportCost.add ctx.ecoFees ∧
    (pass ctx).ecoFees =
      ((pass ctx).logisticsCost.mul (.num 0.1)).add ((pass ctx).co2Cost.mul (.num 0.05)) ∧
    (pass ctx).materialCost = ctx.materialCost ∧
    (pass ctx).energyCost = ctx.energyCost ∧
    (pass ctx).transportCost = ctx.transportCost :=
  ⟨rfl, rfl, rfl, rfl, rfl, rfl, rfl⟩

/-- C3: every input attribute's initial value follows the precedence
manual override > named scenario value > Base scenario value > declared
baseline, per attribute. -/
theorem C3_override_precedence (scenarioName : String) (manualOverrides : Option Scenario) :
    (initialContext scenarioName manualOverrides).materialCost =
      specResolvedInput
        ((manualOverrides.bind Scenario.Production).getD emptyProductionOverrides).materialCost
        (((scenariosGet scenarioName).getD emptyScenario).Production.getD
          emptyProductionOverrides).materialCost
        baseProduction.materialCost
        blocks.Production.materialCost.value ∧
    (initialContext scenarioName manualOverrides).energyCost =
      specResolvedInput
        ((manualOverrides.bind Scenario.Production).getD emptyProductionOverrides).energyCost
        (((scenariosGet scenarioName).getD emptyScenario).Production.getD
          emptyProductionOverrides).energyCost
        baseProduction.energyCost
        blocks.Production.energyCost.value ∧
    (initialContext scenarioName manualOverrides).transportCost =
      specResolvedInput
        ((manualOverrides.bind Scenario.Logistics).getD emptyLogisticsOverrides).transportCost
        (((scenariosGet scenarioName).getD emptyScenario).Logistics.getD
          emptyLogisticsOverrides).transportCost
        baseLogistics.transportCost
        blocks.Logistics.transportCost.value := by
  refine ⟨?_, ?_, ?_⟩ <;> exact bang_spread3_eq _ _ _ _

/-- C4: an unknown scenario identifier raises no error and yields exactly the
run of scenario "Base" with the same arguments. -/
theorem C4_unknown_scenario_is_base (scenarioName : String)
    (h : scenariosGet scenarioName = none) (maxIterations : ℕ) (threshold : JsNumber)
    (manualOverrides : Option Scenario) :
    runSimulation scenarioName maxIterations threshold manualOverrides =
      runSimulation "Base" maxIterations threshold manualOverrides := by
  unfold runSimulation
  suffices hinit : initialContext scenarioName manualOverrides =
      initialContext "Base" manualOverrides by rw [hinit]
  unfold initialContext
  rw [finalProduction_unknown scenarioName h, finalLogistics_unknown scenarioName h]

/-- C4 witness: a concrete run under an identifier absent from the scenario
catalog equals the same run under "Base". -/
theorem C4_unknown_scenario_is_base_witness :
    runSimulation "DoesNotExist" 3 (.num 1) none = runSimulation "Base" 3 (.num 1) none :=
  C4_unknown_scenario_is_base "DoesNotExist" rfl 3 (.num 1) none

/-- C6: with `maxIterations = 0` no relaxation pass runs: the result is the
initial context itself, its four calculated attributes are zero and its three
input attributes equal the precedence-resolved values. -/
theorem C6_zero_iterations (scenarioName : String) (threshold : JsNumber)
    (manualOverrides : Option Scenario) :
    runSimulation scenarioName 0 threshold manualOverrides =
      initialContext scenarioName manualOverrides ∧
    (runSimulation scenarioName 0 threshold manualOverrides).disposalCost = .num 0 ∧
    (runSimulation scenarioName 0 threshold manualOverrides).co2Cost = .num 0 ∧
    (runSimulation scenarioName 0 threshold manualOverrides).logisticsCost = .num 0 ∧
    (runSimulation scenarioName 0 threshold manualOverrides).ecoFees = .num 0 ∧
    (runSimulation scenarioName 0 threshold manualOverrides).materialCost =
      specResolvedInput
        ((manualOverrides.bind Scenario.Production).getD emptyProductionOverrides).materialCost
        (((scenariosGet scenarioName).getD emptyScenario).Production.getD
          emptyProductionOverrides).materialCost
        baseProduction.materialCost
        blocks.Production.materialCost.value ∧
    (runSimulation scenarioName 0 threshold manualOverrides).energyCost =
      specResolvedInput
        ((manualOverrides.bind Scenario.Production).getD emptyProductionOverrides).energyCost
        (((scenariosGet scenarioName).getD emptyScenario).Production.getD
          emptyProductionOverrides).energyCost
        baseProduction.energyCost
        blocks.Production.energyCost.value ∧
    (runSimulation scenarioName 0 threshold manualOverrides).transportCost =
      specResolvedInput
        ((manualOverrides.bind Scenario.Logistics).getD emptyLogisticsOverrides).transportCost
        (((scenariosGet scenarioName).getD emptyScenario).Logistics.getD
          emptyLogisticsOverrides).transportCost
        baseLogistics.transportCost
        blocks.Logistics.transportCost.value :=
  ⟨rfl, rfl, rfl, rfl, rfl,
    bang_spread3_eq _ _ _ _, bang_spread3_eq _ _ _ _, bang_spread3_eq _ _ _ _⟩

/-- C10: manual overrides for calculated attribute names have no effect — any
two override sets agreeing on the three input attributes yield identical
contexts, since the initial context reads only materialCost, energyCost and
transportCost from the merged overrides and zero-initializes every calculated
attribute. -/
theorem C10_calculated_overrides_inert (scenarioName : String) (maxIterations : ℕ)
    (threshold : JsNumber) (o o' : Option Scenario)
    (hm : ((o.bind Scenario.Production).getD emptyProductionOverrides).materialCost =
      ((o'.bind Scenario.Production).getD emptyProductionOverrides).materialCost)
    (he : ((o.bind Scenario.Production).getD emptyProductionOverrides).energyCost =
      ((o'.bind Scenario.Production).getD emptyProductionOverrides).energyCost)
    (ht : ((o.bind Scenario.Logistics).getD emptyLogisticsOverrides).transportCost =
      ((o'.bind Scenario.Logistics).getD emptyLogisticsOverrides).transportCost) :
    runSimulation scenarioName maxIterations threshold o =
      runSimulation scenarioName maxIterations threshold o' := by
  unfold runSimulation
  suffices hinit : initialContext scenarioName o = initialContext scenarioName o' by
    rw [hinit]
  simp only [initialContext, finalProduction, finalLogistics]
  rw [hm, he, ht]

/-- C10 witness: adding overrides for the calculated names disposalCost,
co2Cost, logisticsCost and ecoFees leaves a concrete run unchanged. -/
theorem C10_calculated_overrides_inert_witness :
    runSimulation "Base" 3 (.num 1) (some ⟨some ⟨none, none, none, none⟩, none⟩) =
      runSimulation "Base" 3 (.num 1)
        (some ⟨some ⟨none, none, some (.num 999), some .nan⟩,
          some ⟨none, some (.num 5), some (.num 7)⟩⟩) :=
  C10_calculated_overrides_inert "Base" 3 (.num 1)
    (some ⟨some ⟨none, none, none, none⟩, none⟩)
    (some ⟨some ⟨none, none, some (.num 999), some .nan⟩,
      some ⟨none, some (.num 5), some (.num 7)⟩⟩) rfl rfl rfl

/-- The spec's configuration error: a declared calculated attribute lacks a
formula. -/
inductive ConfigError where
  | missingFormula
deriving DecidableEq

/-- Modelled from the spec: the repository has no standalone `formulaOf`
accessor — the solver inlines non-null assertions (`attr.formula!`) on the
fixed model, whose calculated attributes all carry formulas.  The spec's
AttributeGraph exposes `formulaOf(block, name) -> pure function`, failing
with a ConfigError when a calculated attribute has no formula. -/
def formulaOf (a : Attribute) : Except ConfigError (SimulationContext → JsNumber) :=
  match a.formula with
  | some f => Except.ok f
  | none => Except.error ConfigError.missingFormula

/-- C8: looking up the formula of a calculated attribute that has none fails
with a ConfigError, and on the concrete model every calculated attribute's
lookup succeeds with its declared formula, so the solver never evaluates a
missing formula silently. -/
theorem C8_missing_formula_is_config_error :
    (∀ a : Attribute, a.type = AttributeType.calculated → a.formula = none →
      formulaOf a = Except.error ConfigError.missingFormula) ∧
    formulaOf blocks.Production.disposalCost = Except.ok disposalCostFormula ∧
    formulaOf blocks.Production.co2Cost = Except.ok co2CostFormula ∧
    formulaOf blocks.Logistics.logisticsCost = Except.ok logisticsCostFormula ∧
    formulaOf blocks.Logistics.ecoFees = Except.ok ecoFeesFormula :=
  ⟨fun _ _ h => by simp [formulaOf, h], rfl, rfl, rfl, rfl⟩

/-- C8 witness: a concrete calculated attribute with no formula fails the
lookup with a ConfigError. -/
theorem C8_missing_formula_is_config_error_witness :
    formulaOf ⟨AttributeType.calculated, none, none⟩ =
      Except.error ConfigError.missingFormula :=
  C8_missing_formula_is_config_error.1 ⟨AttributeType.calculated, none, none⟩ rfl rfl

/-- C5: when no pass ever brings the maximum delta strictly below the
threshold, the loop exhausts its `maxIterations` passes and returns the last
computed context — no error is raised, and the result is an ordinary
`SimulationContext` carrying no flag that distinguishes exhaustion from
convergence. -/
theorem C5_exhaustion_returns_last_pass (scenarioName : String) (o : Option Scenario)
    (threshold : JsNumber) (maxIterations : ℕ)
    (h : ∀ j, j < maxIterations →
      (maxDelta (pass^[j] (initialContext scenarioName o))
        (pass^[j + 1] (initialContext scenarioName o))).lt threshold = false) :
    runSimulation scenarioName maxIterations threshold o =
      pass^[maxIterations] (initialContext scenarioName o) :=
  runLoop_exhaust threshold maxIterations (initialContext scenarioName o) h

/-- C5 witness: with threshold 0 the delta test never passes, and a concrete
two-iteration run returns exactly the second pass's context. -/
theorem C5_exhaustion_returns_last_pass_witness :
    runSimulation "Base" 2 (.num 0) none = pass^[2] (initialContext "Base" none) :=
  C5_exhaustion_returns_last_pass "Base" none (.num 0) 2 (by
    intro j hj
    interval_cases j <;>
      · rw [show initialContext "Base" none = QCtx.toJs ⟨120, 60, 0, 0, 35, 0, 0⟩ from rfl,
          iterate_pass_toJs, iterate_pass_toJs, maxDelta_toJs, lt_num]
        norm_num [maxDeltaQ, passQ, Function.iterate_succ_apply,
          Function.iterate_zero_apply, abs_of_nonneg, abs_of_nonpos, max_def])

theorem nan_mul (x : JsNumber) : JsNumber.nan.mul x = JsNumber.nan := by cases x <;> rfl

theorem nan_add (x : JsNumber) : JsNumber.nan.add x = JsNumber.nan := by cases x <;> rfl

/-- A loop granted at least one iteration always returns the output of a
pass, and that pass's input carries the initial materialCost. -/
theorem runLoop_pos_is_pass (th : JsNumber) (n : ℕ) (hn : 1 ≤ n) (s : SimulationContext) :
    ∃ s', runLoop th n s = pass s' ∧ s'.materialCost = s.materialCost := by
  induction n generalizing s with
  | zero => omega
  | succ n ih =>
    rw [runLoop_succ]
    by_cases hb : (maxDelta s (pass s)).lt th = true
    · exact ⟨s, by rw [if_pos hb], rfl⟩
    · rcases Nat.eq_zero_or_pos n with rfl | hn'
      · exact ⟨s, by rw [if_neg hb]; rfl, rfl⟩
      · obtain ⟨s', hs', hsm⟩ := ih hn' (pass s)
        exact ⟨s', by rw [if_neg hb, hs'], by rw [hsm, pass_materialCost]⟩

/-- C7 counterexample: a NaN manual override raises no ValidationError — the
run completes and the non-finite value flows through the first relaxation
pass into disposalCost, so it did enter iteration. -/
theorem C7_counterexample :
    (runSimulation "Base" 1 (.num 0.001)
      (some ⟨some ⟨some .nan, none, none, none⟩, none⟩)).materialCost = JsNumber.nan ∧
    (runSimulation "Base" 1 (.num 0.001)
      (some ⟨some ⟨some .nan, none, none, none⟩, none⟩)).disposalCost = JsNumber.nan :=
  ⟨rfl, rfl⟩

/-- C7 (amended): `runSimulation` performs no finiteness validation — a
non-finite override value is accepted into the context, enters the relaxation
passes, and propagates into calculated attributes; no error is raised. -/
theorem C7_no_finiteness_validation (scenarioName : String) (o : Option Scenario)
    (maxIterations : ℕ) (hit : 1 ≤ maxIterations) (threshold : JsNumber)
    (hov : ((o.bind Scenario.Production).getD emptyProductionOverrides).materialCost =
      some JsNumber.nan) :
    (runSimulation scenarioName maxIterations threshold o).materialCost = JsNumber.nan ∧
    (runSimulation scenarioName maxIterations threshold o).disposalCost = JsNumber.nan := by
  have hmat : (initialContext scenarioName o).materialCost = JsNumber.nan := by
    simp only [initialContext, finalProduction]
    rw [hov]
    rfl
  obtain ⟨s', hrun, hsm⟩ :=
    runLoop_pos_is_pass threshold maxIterations hit (initialContext scenarioName o)
  have hsm' : s'.materialCost = JsNumber.nan := by rw [hsm, hmat]
  constructor
  · show (runLoop threshold maxIterations (initialContext scenarioName o)).materialCost = _
    rw [hrun, pass_materialCost, hsm']
  · show (runLoop threshold maxIterations (initialContext scenarioName o)).disposalCost = _
    rw [hrun]
    show (s'.materialCost.mul (.num 0.8)).add s'.co2Cost = JsNumber.nan
    rw [hsm', nan_mul, nan_add]

/-- C7 witness for the amended statement: a concrete two-iteration run under
the HighEnergyPrices scenario with a NaN materialCost override completes and
carries NaN in materialCost and disposalCost. -/
theorem C7_no_finiteness_validation_witness :
    (runSimulation "HighEnergyPrices" 2 (.num 1)
      (some ⟨some ⟨some .nan, none, none, none⟩, none⟩)).materialCost = JsNumber.nan ∧
    (runSimulation "HighEnergyPrices" 2 (.num 1)
      (some ⟨some ⟨some .nan, none, none, none⟩, none⟩)).disposalCost = JsNumber.nan :=
  C7_no_finiteness_validation "HighEnergyPrices"
    (some ⟨some ⟨some .nan, none, none, none⟩, none⟩) 2 (by omega) (.num 1) rfl

/-! ### The contraction argument -/

/-- The Gauss-Seidel update turns the delta vector `(D, A, L, B)` of one pass
into `(A, 0.05 A, B, 0.1 B + 0.0025 A)` on the next, and the maximum of the
new vector never exceeds the maximum of the old one. -/
theorem deltaQ_chain_le (A B D L : ℚ) :
    max (max (max |A| |0.05 * A|) |B|) |0.1 * B + 0.0025 * A| ≤
      max (max (max D |A|) L) |B| := by
  have hA : |A| ≤ max (max (max D |A|) L) |B| :=
    le_max_of_le_left (le_max_of_le_left (le_max_right _ _))
  have hB : |B| ≤ max (max (max D |A|) L) |B| := le_max_right _ _
  have hA0 : (0 : ℚ) ≤ |A| := abs_nonneg A
  have hB0 : (0 : ℚ) ≤ |B| := abs_nonneg B
  have h5 : |0.05 * A| ≤ |A| := by
    rw [abs_mul, show |(0.05 : ℚ)| = 0.05 by norm_num]
    linarith
  have habs : |0.1 * B + 0.0025 * A| ≤ |0.1 * B| + |0.0025 * A| := abs_add _ _
  have h4 : |0.1 * B + 0.0025 * A| ≤ max (max (max D |A|) L) |B| := by
    rw [abs_mul, abs_mul] at habs
    have h01 : |(0.1 : ℚ)| = 0.1 := by norm_num
    have h0025 : |(0.0025 : ℚ)| = 0.0025 := by norm_num
    rw [h01, h0025] at habs
    linarith
  exact max_le (max_le (max_le hA (le_trans h5 hA)) hB) h4

/-- On all-finite contexts, the maximum delta of the next pass never exceeds
the maximum delta of the current pass. -/
theorem maxDeltaQ_passQ_antitone (s : QCtx) :
    maxDeltaQ (passQ s) (passQ (passQ s)) ≤ maxDeltaQ s (passQ s) := by
  have h1 : (passQ (passQ s)).disposalCost - (passQ s).disposalCost =
      (passQ s).co2Cost - s.co2Cost := by
    simp only [passQ]
    ring
  have h2 : (passQ (passQ s)).co2Cost - (passQ s).co2Cost =
      0.05 * ((passQ s).co2Cost - s.co2Cost) := by
    simp only [passQ]
    ring
  have h3 : (passQ (passQ s)).logisticsCost - (passQ s).logisticsCost =
      (passQ s).ecoFees - s.ecoFees := by
    simp only [passQ]
    ring
  have h4 : (passQ (passQ s)).ecoFees - (passQ s).ecoFees =
      0.1 * ((passQ s).ecoFees - s.ecoFees) + 0.0025 * ((passQ s).co2Cost - s.co2Cost) := by
    simp only [passQ]
    ring
  unfold maxDeltaQ
  rw [h1, h2, h3, h4]
  exact deltaQ_chain_le _ _ _ _

/-- When a pass moves every calculated attribute by less than `th`, its output
satisfies the four block equations within `th` (two of them exactly, by the
Gauss-Seidel substitution). -/
theorem passQ_fixed_point (a : QCtx) (th : ℚ) (hth : 0 < th)
    (h : maxDeltaQ a (passQ a) < th) :
    |(passQ a).disposalCost - ((passQ a).materialCost * 0.8 + (passQ a).co2Cost)| < th ∧
    |(passQ a).co2Cost - ((passQ a).energyCost * 0.1 + (passQ a).disposalCost * 0.05)| < th ∧
    |(passQ a).logisticsCost - ((passQ a).transportCost + (passQ a).ecoFees)| < th ∧
    |(passQ a).ecoFees - ((passQ a).logisticsCost * 0.1 + (passQ a).co2Cost * 0.05)| < th := by
  have hc : |(passQ a).co2Cost - a.co2Cost| ≤ maxDeltaQ a (passQ a) := by
    unfold maxDeltaQ
    exact le_max_of_le_left (le_max_of_le_left (le_max_right _ _))
  have hf : |(passQ a).ecoFees - a.ecoFees| ≤ maxDeltaQ a (passQ a) := by
    unfold maxDeltaQ
    exact le_max_right _ _
  refine ⟨?_, ?_, ?_, ?_⟩
  · have h1 : (passQ a).disposalCost - ((passQ a).materialCost * 0.8 + (passQ a).co2Cost) =
        -((passQ a).co2Cost - a.co2Cost) := by
      simp only [passQ]
      ring
    rw [h1, abs_neg]
    exact lt_of_le_of_lt hc h
  · have h2 : (passQ a).co2Cost -
        ((passQ a).energyCost * 0.1 + (passQ a).disposalCost * 0.05) = 0 := by
      simp only [passQ]
      ring
    rw [h2, abs_zero]
    exact hth
  · have h3 : (passQ a).logisticsCost - ((passQ a).transportCost + (passQ a).ecoFees) =
        -((passQ a).ecoFees - a.ecoFees) := by
      simp only [passQ]
      ring
    rw [h3, abs_neg]
    exact lt_of_le_of_lt hf h
  · have h4 : (passQ a).ecoFees -
        ((passQ a).logisticsCost * 0.1 + (passQ a).co2Cost * 0.05) = 0 := by
      simp only [passQ]
      ring
    rw [h4, abs_zero]
    exact hth

/-- C1: a run with finite resolved inputs that terminates via the convergence
test (passes `0..k-1` fail the delta test, pass `k` passes it, and the budget
allows pass `k`) returns a context satisfying all four calculated-attribute
equations simultaneously within the threshold. -/
theorem C1_converged_satisfies_equations (scenarioName : String) (o : Option Scenario)
    (m e t th : ℚ) (hth : 0 < th)
    (hm : (finalProduction scenarioName o).materialCost = some (.num m))
    (he : (finalProduction scenarioName o).energyCost = some (.num e))
    (ht : (finalLogistics scenarioName o).transportCost = some (.num t))
    (maxIterations k : ℕ) (hkn : k < maxIterations)
    (hbefore : ∀ j, j < k →
      (maxDelta (pass^[j] (initialContext scenarioName o))
        (pass^[j + 1] (initialContext scenarioName o))).lt (.num th) = false)
    (hk : (maxDelta (pass^[k] (initialContext scenarioName o))
      (pass^[k + 1] (initialContext scenarioName o))).lt (.num th) = true) :
    ∃ r : QCtx, runSimulation scenarioName maxIterations (.num th) o = r.toJs ∧
      |r.disposalCost - (r.materialCost * 0.8 + r.co2Cost)| < th ∧
      |r.co2Cost - (r.energyCost * 0.1 + r.disposalCost * 0.05)| < th ∧
      |r.logisticsCost - (r.transportCost + r.ecoFees)| < th ∧
      |r.ecoFees - (r.logisticsCost * 0.1 + r.co2Cost * 0.05)| < th := by
  have hinit := initialContext_finite scenarioName o m e t hm he ht
  have hrun : runSimulation scenarioName maxIterations (.num th) o =
      pass^[k + 1] (initialContext scenarioName o) :=
    runLoop_converge (.num th) k maxIterations (initialContext scenarioName o) hkn hbefore hk
  rw [hinit, iterate_pass_toJs, iterate_pass_toJs, maxDelta_toJs, lt_num,
    decide_eq_true_eq] at hk
  refine ⟨passQ^[k + 1] ⟨m, e, 0, 0, t, 0, 0⟩, ?_, ?_⟩
  · rw [hrun, hinit, iterate_pass_toJs]
  · rw [Function.iterate_succ_apply' passQ k] at hk ⊢
    exact passQ_fixed_point (passQ^[k] ⟨m, e, 0, 0, t, 0, 0⟩) th hth hk

/-- C1 witness: the Base run with threshold 1 converges on its third pass
(the first two deltas, 96 and 54/5, fail the test; the third, 27/50, passes),
and the theorem applies to it. -/
theorem C1_converged_satisfies_equations_witness :
    ∃ r : QCtx, runSimulation "Base" 4 (.num 1) none = r.toJs ∧
      |r.disposalCost - (r.materialCost * 0.8 + r.co2Cost)| < 1 ∧
      |r.co2Cost - (r.energyCost * 0.1 + r.disposalCost * 0.05)| < 1 ∧
      |r.logisticsCost - (r.transportCost + r.ecoFees)| < 1 ∧
      |r.ecoFees - (r.logisticsCost * 0.1 + r.co2Cost * 0.05)| < 1 :=
  C1_converged_satisfies_equations "Base" none 120 60 35 1 one_pos rfl rfl rfl 4 2
    (by omega)
    (by
      intro j hj
      interval_cases j <;>
        · rw [show initialContext "Base" none = QCtx.toJs ⟨120, 60, 0, 0, 35, 0, 0⟩ from rfl,
            iterate_pass_toJs, iterate_pass_toJs, maxDelta_toJs, lt_num]
          norm_num [maxDeltaQ, passQ, Function.iterate_succ_apply,
            Function.iterate_zero_apply, abs_of_nonneg, abs_of_nonpos, max_def])
    (by
      rw [show initialContext "Base" none = QCtx.toJs ⟨120, 60, 0, 0, 35, 0, 0⟩ from rfl,
        iterate_pass_toJs, iterate_pass_toJs, maxDelta_toJs, lt_num]
      norm_num [maxDeltaQ, passQ, Function.iterate_succ_apply,
        Function.iterate_zero_apply, abs_of_nonneg, abs_of_nonpos, max_def])

/-- C9: in a run with finite resolved inputs the maximum per-pass delta is
non-increasing from the second pass onward — for every `k ≥ 2`, pass `k`'s
maximum delta is at most pass `k-1`'s. -/
theorem C9_max_delta_nonincreasing (scenarioName : String) (o : Option Scenario)
    (m e t : ℚ)
    (hm : (finalProduction scenarioName o).materialCost = some (.num m))
    (he : (finalProduction scenarioName o).energyCost = some (.num e))
    (ht : (finalLogistics scenarioName o).transportCost = some (.num t))
    (k : ℕ) (hk : 2 ≤ k) :
    ∃ q₁ q₂ : ℚ,
      maxDelta (pass^[k - 1] (initialContext scenarioName o))
        (pass^[k] (initialContext scenarioName o)) = .num q₁ ∧
      maxDelta (pass^[k - 2] (initialContext scenarioName o))
        (pass^[k - 1] (initialContext scenarioName o)) = .num q₂ ∧
      q₁ ≤ q₂ := by
  have hinit := initialContext_finite scenarioName o m e t hm he ht
  obtain ⟨j, rfl⟩ : ∃ j, k = j + 2 := ⟨k - 2, by omega⟩
  have e1 : j + 2 - 1 = j + 1 := rfl
  have e2 : j + 2 - 2 = j := rfl
  rw [hinit, e1, e2, iterate_pass_toJs, iterate_pass_toJs, iterate_pass_toJs,
    maxDelta_toJs, maxDelta_toJs]
  refine ⟨_, _, rfl, rfl, ?_⟩
  rw [show j + 2 = (j + 1) + 1 from rfl, Function.iterate_succ_apply' passQ (j + 1),
    Function.iterate_succ_apply' passQ j]
  exact maxDeltaQ_passQ_antitone (passQ^[j] ⟨m, e, 0, 0, t, 0, 0⟩)

/-- C9 witness: for the Base run, the second pass's maximum delta (54/5) and
the first's (96) witness the non-increase at `k = 2`. -/
theorem C9_max_delta_nonincreasing_witness :
    ∃ q₁ q₂ : ℚ,
      maxDelta (pass^[2 - 1] (initialContext "Base" none))
        (pass^[2] (initialContext "Base" none)) = .num q₁ ∧
      maxDelta (pass^[2 - 2] (initialContext "Base" none))
        (pass^[2 - 1] (initialContext "Base" none)) = .num q₂ ∧
      q₁ ≤ q₂ :=
  C9_max_delta_nonincreasing "Base" none 120 60 35 rfl rfl rfl 2 (by omega)

end DataModel
